import Mathlib

/-!
Verification of the cue-flac-splitter repository's lyrics-fetching script
(`audio_lyrics_fetcher.py`) against its natural-language specification.

The development shallowly embeds the script:

* `fetch_lyrics` / `fetch_lyrics_trace` embed `LyricsFetcher.fetch_lyrics`
  (source lines 111-141), parametrised over the behaviour of the three
  per-source fetch helpers that it invokes; the trace variant additionally
  records which sources were consulted, mirroring the sequential control
  flow of the Python function.
* `fetch_lyrics_lrclib`, `fetch_lyrics_chartlyrics`, `fetch_lyrics_ovh` and
  `fetch_lyrics_api` embed the four per-source helpers (lines 27-109) over
  an explicit transport model; each is the `try`/`except` wrapping of a
  body that can raise.
* `process_audio_file`, `runFiles` and `process_directory` embed
  `AudioParser.process_audio_file` (lines 204-234) and
  `AudioParser.process_directory` (lines 236-261); the filesystem is an
  explicit store of sidecar text files, metadata extraction and the save
  failure mode are environment parameters, and an event trace records
  metadata extraction, network fetches, writes and pacing sleeps.

Python truthiness of optional strings (`None` and `""` are both falsy) is
modelled by `truthyS`.
-/

/-- Python truthiness of an optional string: `None` and the empty string are
falsy, every other string is truthy.  Used for `if lyrics:` checks and for
`if not artist or not title:`. -/
def truthyS : Option String → Bool
  | none => false
  | some s => if s = "" then false else true

/-- Python `str.strip()`: remove leading and trailing whitespace. -/
def pyStrip (s : String) : String :=
  String.mk (((s.data.dropWhile Char.isWhitespace).reverse.dropWhile
    Char.isWhitespace).reverse)

/-- A character kept by the cleanup regex `re.sub(r'[^\w\s-]', '', x)`:
word characters (alphanumeric or underscore), whitespace, and hyphen. -/
def isTagKeptChar (c : Char) : Bool :=
  c.isAlphanum || c == '_' || c.isWhitespace || c == '-'

/-- `re.sub(r'[^\w\s-]', '', x).strip()` from `fetch_lyrics` lines 116-117. -/
def cleanTag (s : String) : String :=
  pyStrip (String.mk (s.data.filter isTagKeptChar))

/-- The lyrics providers appearing in `LyricsFetcher`. -/
inductive Source where
  | lrclib
  | chartlyrics
  | ovh
  | allorigins
deriving DecidableEq, Repr

/-- The configuration constant `self.api_sources = ['lrclib', 'lyrics.ovh']`
set in `LyricsFetcher.__init__` (line 25), annotated "Priority order". -/
def api_sources : List Source :=
  [Source.lrclib, Source.ovh]

/-- The order in which `fetch_lyrics` actually consults sources, hard-coded
in its body: LRCLIB, then ChartLyrics, then lyrics.ovh. -/
def chain_order : List Source :=
  [Source.lrclib, Source.chartlyrics, Source.ovh]

/-- The behaviours of the three per-source helpers that `fetch_lyrics`
invokes, abstracted as functions from the two string arguments to an
optional lyrics string (`None` = absent). -/
structure Sources where
  lrclib : String → String → Option String
  chartlyrics : String → String → Option String
  ovh : String → String → Option String

/-- `lyrics.strip()` applied to a present result. -/
def stripOpt : Option String → Option String
  | none => none
  | some s => some (pyStrip s)

/-- `LyricsFetcher.fetch_lyrics` (lines 111-141), instrumented with the list
of sources consulted.  It tries LRCLIB with the raw artist/title, then
ChartLyrics with the raw artist/title, then lyrics.ovh with the cleaned
artist/title; at the first truthy result it returns that result stripped,
and if all three are falsy it returns `none`. -/
def fetch_lyrics_trace (S : Sources) (artist title : String) :
    Option String × List Source :=
  let artist_clean := cleanTag artist
  let title_clean := cleanTag title
  let r1 := S.lrclib artist title
  if truthyS r1 then (stripOpt r1, [Source.lrclib])
  else
    let r2 := S.chartlyrics artist title
    if truthyS r2 then (stripOpt r2, [Source.lrclib, Source.chartlyrics])
    else
      let r3 := S.ovh artist_clean title_clean
      if truthyS r3 then (stripOpt r3, chain_order)
      else (none, chain_order)

/-- The value returned by `LyricsFetcher.fetch_lyrics`. -/
def fetch_lyrics (S : Sources) (artist title : String) : Option String :=
  (fetch_lyrics_trace S artist title).1

/-- A `Sources` value where every helper reports absence. -/
def sourcesNone : Sources :=
  ⟨fun _ _ => none, fun _ _ => none, fun _ _ => none⟩

/-- A `Sources` value where LRCLIB returns the given string and the other
helpers report absence. -/
def sourcesFirst (s : String) : Sources :=
  ⟨fun _ _ => some s, fun _ _ => none, fun _ _ => none⟩

/-- The outcome of the HTTP GET performed by a per-source helper: the call
itself raised (network error, timeout), or it returned a response with a
status code and a body. -/
inductive Transport (β : Type) where
  | exn
  | ok (status : Nat) (body : β)

/-- The `try`/`except` wrapper every per-source helper uses: a raised
exception is swallowed and turned into `None`. -/
def tryExceptNone : Except Unit (Option String) → Option String
  | .ok v => v
  | .error _ => none

/-- One entry of the JSON array returned by the LRCLIB search endpoint, as
read by `fetch_lyrics_lrclib`: the `plainLyrics` and `syncedLyrics` fields
(`""` models a missing, null or empty field, which Python treats alike
under `or` and `if`). -/
structure LrcRecord where
  plainLyrics : String
  syncedLyrics : String

/-- The body of an LRCLIB response: unparseable (raises inside the `try`),
or a JSON list of records. -/
inductive LrclibBody where
  | malformed
  | json (data : List LrcRecord)

/-- Body of `fetch_lyrics_lrclib` (lines 27-48) before its `try`/`except`:
on status 200, take the first record's `plainLyrics or syncedLyrics` and
return it when truthy; otherwise `None`.  Parsing a malformed body raises. -/
def fetch_lyrics_lrclib_body : Transport LrclibBody → Except Unit (Option String)
  | .exn => .error ()
  | .ok status body =>
    if status = 200 then
      match body with
      | .malformed => .error ()
      | .json [] => .ok none
      | .json (r0 :: _) =>
        let lyrics := if r0.plainLyrics = "" then r0.syncedLyrics else r0.plainLyrics
        .ok (if lyrics = "" then none else some lyrics)
    else .ok none

/-- `LyricsFetcher.fetch_lyrics_lrclib` as seen by its caller. -/
def fetch_lyrics_lrclib (t : Transport LrclibBody) : Option String :=
  tryExceptNone (fetch_lyrics_lrclib_body t)

/-- The body of a ChartLyrics response: XML that fails to parse (raises), or
parsed XML whose `Lyric` element is absent (`none`) or carries the given
text (`some ""` models an empty or null text). -/
inductive ChartBody where
  | malformed
  | xml (lyric : Option String)

/-- Body of `fetch_lyrics_chartlyrics` (lines 50-71) before its
`try`/`except`: on status 200, parse the XML and return the `Lyric`
element's text when the element exists and its text is truthy. -/
def fetch_lyrics_chartlyrics_body : Transport ChartBody → Except Unit (Option String)
  | .exn => .error ()
  | .ok status body =>
    if status = 200 then
      match body with
      | .malformed => .error ()
      | .xml none => .ok none
      | .xml (some t) => .ok (if t = "" then none else some t)
    else .ok none

/-- `LyricsFetcher.fetch_lyrics_chartlyrics` as seen by its caller. -/
def fetch_lyrics_chartlyrics (t : Transport ChartBody) : Option String :=
  tryExceptNone (fetch_lyrics_chartlyrics_body t)

/-- The body of a lyrics.ovh response: unparseable JSON (raises), or a JSON
object whose `lyrics` field is the given string (`""` models a missing or
empty field). -/
inductive OvhBody where
  | malformed
  | json (lyrics : String)

/-- Body of `fetch_lyrics_ovh` (lines 73-87) before its `try`/`except`: on
status 200, return the `lyrics` field when truthy. -/
def fetch_lyrics_ovh_body : Transport OvhBody → Except Unit (Option String)
  | .exn => .error ()
  | .ok status body =>
    if status = 200 then
      match body with
      | .malformed => .error ()
      | .json l => .ok (if l = "" then none else some l)
    else .ok none

/-- `LyricsFetcher.fetch_lyrics_ovh` as seen by its caller. -/
def fetch_lyrics_ovh (t : Transport OvhBody) : Option String :=
  tryExceptNone (fetch_lyrics_ovh_body t)

/-- The body of an allorigins.win wrapper response: unparseable outer JSON
(raises), outer JSON without a `contents` key, a `contents` string that is
not itself valid JSON (the inner `json.loads` raises), or a successfully
unwrapped object whose `lyrics` field is the given string. -/
inductive AllOriginsBody where
  | malformed
  | jsonNoContents
  | jsonBadContents
  | json (lyrics : String)

/-- Body of `fetch_lyrics_api` (lines 89-109) before its `try`/`except`: on
status 200, unwrap `contents` and return the inner `lyrics` field when
truthy. -/
def fetch_lyrics_api_body : Transport AllOriginsBody → Except Unit (Option String)
  | .exn => .error ()
  | .ok status body =>
    if status = 200 then
      match body with
      | .malformed => .error ()
      | .jsonNoContents => .ok none
      | .jsonBadContents => .error ()
      | .json l => .ok (if l = "" then none else some l)
    else .ok none

/-- `LyricsFetcher.fetch_lyrics_api` as seen by its caller. -/
def fetch_lyrics_api (t : Transport AllOriginsBody) : Option String :=
  tryExceptNone (fetch_lyrics_api_body t)

/-- A file name as the script manipulates it: a stem and an extension
(without the dot), so that `audio_path.with_suffix('.txt')` is replacement
of the extension by `txt`. -/
structure FileName where
  stem : String
  ext : String
deriving DecidableEq, Repr

/-- `audio_path.with_suffix('.txt')` from `save_lyrics` and
`process_audio_file`. -/
def txtPath (f : FileName) : FileName :=
  ⟨f.stem, "txt"⟩

/-- The store of sidecar text files: a list of (path, contents) pairs where
the most recent write shadows earlier ones. -/
abbrev FS : Type :=
  List (FileName × String)

/-- Look a file up in the store. -/
def fsGet : FS → FileName → Option String
  | [], _ => none
  | (q, c) :: rest, p => if q = p then some c else fsGet rest p

/-- `txt_path.exists()`. -/
def txtExists (fs : FS) (p : FileName) : Bool :=
  (fsGet fs p).isSome

/-- `open(txt_path, 'w')` followed by a successful write. -/
def fsWrite (fs : FS) (p : FileName) (content : String) : FS :=
  (p, content) :: fs

/-- The run-level counters of `AudioParser`. -/
structure Counters where
  processed : Nat
  found : Nat
  errors : Nat
deriving DecidableEq, Repr

/-- The observable steps of processing one audio file. -/
inductive Event where
  | skippedExisting
  | extractedMeta
  | fetched (artist title : String)
  | wrote (p : FileName) (content : String)
  | slept
deriving DecidableEq, Repr

/-- The external collaborators of the batch processor: metadata extraction
(`extract_metadata`, which may yield `None` or empty strings for either
tag), the behaviour of the three lyrics sources, and whether writing the
sidecar file for a given audio file succeeds (`save_lyrics` returns `True`)
or raises inside `save_lyrics` (which then returns `False`). -/
structure Env where
  meta : FileName → Option String × Option String
  srcs : Sources
  saveOk : FileName → Bool

/-- `AudioParser.process_audio_file` (lines 204-234).  Returns the updated
file store, the updated counters, and the trace of events for this file:

* if the sidecar `.txt` already exists, skip immediately;
* extract metadata; if artist or title is falsy, count an error and return;
* fetch lyrics through the fallback chain; if the result is truthy, attempt
  to save it and on success count it as found, otherwise count an error;
* increment `processed` and sleep the pacing delay. -/
def process_audio_file (env : Env) (fs : FS) (c : Counters) (f : FileName) :
    FS × Counters × List Event :=
  let txt := txtPath f
  if txtExists fs txt then
    (fs, c, [Event.skippedExisting])
  else
    let m := env.meta f
    if !truthyS m.1 || !truthyS m.2 then
      (fs, { c with errors := c.errors + 1 }, [Event.extractedMeta])
    else
      let artist := m.1.getD ""
      let title := m.2.getD ""
      let lyrics := fetch_lyrics env.srcs artist title
      if truthyS lyrics then
        if env.saveOk f then
          (fsWrite fs txt (lyrics.getD ""),
           { c with found := c.found + 1, processed := c.processed + 1 },
           [Event.extractedMeta, Event.fetched artist title,
            Event.wrote txt (lyrics.getD ""), Event.slept])
        else
          (fs, { c with processed := c.processed + 1 },
           [Event.extractedMeta, Event.fetched artist title, Event.slept])
      else
        (fs, { c with errors := c.errors + 1, processed := c.processed + 1 },
         [Event.extractedMeta, Event.fetched artist title, Event.slept])

/-- The loop `for audio_path in sorted(audio_files): self.process_audio_file(audio_path)`,
accumulating the per-file event traces. -/
def runFiles (env : Env) (files : List FileName) (fs : FS) (c : Counters) :
    FS × Counters × List (FileName × List Event) :=
  match files with
  | [] => (fs, c, [])
  | f :: rest =>
    let r := process_audio_file env fs c f
    let rr := runFiles env rest r.1 r.2.1
    (rr.1, rr.2.1, (f, r.2.2) :: rr.2.2)

/-- The glob patterns of `process_directory` line 246, reduced to the
extensions they match: `*.flac` matches exactly the names ending in
`.flac`, and so on. -/
def patterns : List String :=
  ["flac", "FLAC", "mp3", "MP3", "m4a", "M4A", "mp4", "MP4"]

/-- Whether a file is collected by one of the eight `rglob` patterns. -/
def matchesAudioPattern (f : FileName) : Bool :=
  patterns.contains f.ext

/-- The character sequence `sorted` compares for a path in our model. -/
def fileKey (f : FileName) : List Char :=
  (f.stem ++ "." ++ f.ext).data

/-- The order in which `sorted(audio_files)` arranges files: lexicographic
on the rendered name. -/
def fileLE (f g : FileName) : Prop :=
  fileKey f ≤ fileKey g

instance : DecidableRel fileLE :=
  fun f g => inferInstanceAs (Decidable (fileKey f ≤ fileKey g))

instance : IsTotal FileName fileLE :=
  ⟨fun f g => le_total (fileKey f) (fileKey g)⟩

instance : IsTrans FileName fileLE :=
  ⟨fun _ _ _ h1 h2 => le_trans h1 h2⟩

/-- Lines 244-260 of `process_directory`: collect the files matching the
eight patterns from the directory tree, remove duplicates (`list(set(...))`)
and sort. -/
def discoverAudio (tree : List FileName) : List FileName :=
  List.insertionSort fileLE ((tree.filter matchesAudioPattern).dedup)

/-- `AudioParser.process_directory` (lines 236-261) over a tree of file
names, starting from the freshly initialised counters. -/
def process_directory (env : Env) (tree : List FileName) (fs : FS) :
    FS × Counters × List (FileName × List Event) :=
  runFiles env (discoverAudio tree) fs ⟨0, 0, 0⟩

/-- ASCII lower-casing of a string, character by character. -/
def lowerStr (s : String) : String :=
  String.mk (s.data.map Char.toLower)

/-- The property the spec's scan clause uses: a file whose extension is some
case variant of `flac`, `mp3`, `m4a` or `mp4`. -/
def extIsCaseVariant (f : FileName) : Bool :=
  ["flac", "mp3", "m4a", "mp4"].contains (lowerStr f.ext)

/-- An environment whose metadata extraction succeeds and whose first source
returns "La la la": the spec's end-to-end happy-path scenario. -/
def envFound : Env :=
  ⟨fun _ => (some "Test Artist", some "Test Song"), sourcesFirst "La la la", fun _ => true⟩

/-- An environment whose metadata extraction yields nothing for every file. -/
def envNoMeta : Env :=
  ⟨fun _ => (none, none), sourcesNone, fun _ => true⟩

/-- An environment where lyrics are found but every save fails. -/
def envSaveFail : Env :=
  ⟨fun _ => (some "x", some "y"), sourcesFirst "La la la", fun _ => false⟩

lemma truthyS_some {l : String} (h : l ≠ "") : truthyS (some l) = true := by
  simp [truthyS, h]

lemma truthyS_true_elim {r : Option String} (h : truthyS r = true) :
    ∃ l, r = some l ∧ l ≠ "" := by
  cases r with
  | none => simp [truthyS] at h
  | some l =>
    refine ⟨l, rfl, ?_⟩
    intro he
    rw [he] at h
    simp [truthyS] at h

lemma fetch_trace_first {S : Sources} {a t l : String}
    (hl : S.lrclib a t = some l) (hne : l ≠ "") :
    fetch_lyrics_trace S a t = (some (pyStrip l), [Source.lrclib]) := by
  simp [fetch_lyrics_trace, hl, truthyS_some hne, stripOpt]

lemma fetch_trace_second {S : Sources} {a t l : String}
    (h1 : truthyS (S.lrclib a t) = false)
    (hl : S.chartlyrics a t = some l) (hne : l ≠ "") :
    fetch_lyrics_trace S a t = (some (pyStrip l), [Source.lrclib, Source.chartlyrics]) := by
  simp [fetch_lyrics_trace, h1, hl, truthyS_some hne, stripOpt]

lemma fetch_trace_third {S : Sources} {a t l : String}
    (h1 : truthyS (S.lrclib a t) = false)
    (h2 : truthyS (S.chartlyrics a t) = false)
    (hl : S.ovh (cleanTag a) (cleanTag t) = some l) (hne : l ≠ "") :
    fetch_lyrics_trace S a t = (some (pyStrip l), chain_order) := by
  simp [fetch_lyrics_trace, h1, h2, hl, truthyS_some hne, stripOpt]

lemma fetch_trace_none {S : Sources} {a t : String}
    (h1 : truthyS (S.lrclib a t) = false)
    (h2 : truthyS (S.chartlyrics a t) = false)
    (h3 : truthyS (S.ovh (cleanTag a) (cleanTag t)) = false) :
    fetch_lyrics_trace S a t = (none, chain_order) := by
  simp [fetch_lyrics_trace, h1, h2, h3]

lemma fetch_lyrics_none_iff (S : Sources) (a t : String) :
    fetch_lyrics S a t = none ↔
      truthyS (S.lrclib a t) = false ∧ truthyS (S.chartlyrics a t) = false ∧
        truthyS (S.ovh (cleanTag a) (cleanTag t)) = false := by
  constructor
  · intro hn
    cases h1 : truthyS (S.lrclib a t) with
    | true =>
      obtain ⟨l, hl, hne⟩ := truthyS_true_elim h1
      rw [fetch_lyrics, fetch_trace_first hl hne] at hn
      exact absurd hn (by simp)
    | false =>
      cases h2 : truthyS (S.chartlyrics a t) with
      | true =>
        obtain ⟨l, hl, hne⟩ := truthyS_true_elim h2
        rw [fetch_lyrics, fetch_trace_second h1 hl hne] at hn
        exact absurd hn (by simp)
      | false =>
        cases h3 : truthyS (S.ovh (cleanTag a) (cleanTag t)) with
        | true =>
          obtain ⟨l, hl, hne⟩ := truthyS_true_elim h3
          rw [fetch_lyrics, fetch_trace_third h1 h2 hl hne] at hn
          exact absurd hn (by simp)
        | false => exact ⟨rfl, rfl, rfl⟩
  · rintro ⟨h1, h2, h3⟩
    rw [fetch_lyrics, fetch_trace_none h1 h2 h3]

lemma fetch_lyrics_some_elim {S : Sources} {a t L : String}
    (h : fetch_lyrics S a t = some L) :
    ∃ raw, L = pyStrip raw ∧
      (S.lrclib a t = some raw ∨ S.chartlyrics a t = some raw ∨
       S.ovh (cleanTag a) (cleanTag t) = some raw) := by
  cases h1 : truthyS (S.lrclib a t) with
  | true =>
    obtain ⟨l, hl, hne⟩ := truthyS_true_elim h1
    rw [fetch_lyrics, fetch_trace_first hl hne] at h
    simp at h
    exact ⟨l, h.symm, Or.inl hl⟩
  | false =>
    cases h2 : truthyS (S.chartlyrics a t) with
    | true =>
      obtain ⟨l, hl, hne⟩ := truthyS_true_elim h2
      rw [fetch_lyrics, fetch_trace_second h1 hl hne] at h
      simp at h
      exact ⟨l, h.symm, Or.inr (Or.inl hl)⟩
    | false =>
      cases h3 : truthyS (S.ovh (cleanTag a) (cleanTag t)) with
      | true =>
        obtain ⟨l, hl, hne⟩ := truthyS_true_elim h3
        rw [fetch_lyrics, fetch_trace_third h1 h2 hl hne] at h
        simp at h
        exact ⟨l, h.symm, Or.inr (Or.inr hl)⟩
      | false =>
        rw [fetch_lyrics, fetch_trace_none h1 h2 h3] at h
        simp at h

/-- C1 (counterexample): with a mocked first source returning `"La la la\n"`,
the chain returns `"La la la"`, which is not the value the source returned,
so the chain does not return "the value of the first source whose attempt
returns a present result" verbatim. -/
theorem fetch_lyrics_strips_source_value :
    (sourcesFirst "La la la\n").lrclib "a" "t" = some "La la la\n" ∧
    fetch_lyrics (sourcesFirst "La la la\n") "a" "t" = some "La la la" ∧
    some "La la la" ≠ (some "La la la\n" : Option String) := by
  exact ⟨rfl, by decide, by decide⟩

/-- C1 (amended): `fetch_lyrics` iterates LRCLIB, ChartLyrics, lyrics.ovh in
that order; it returns the whitespace-stripped value of the first source
whose attempt returns a truthy (present and nonempty) result, consulting no
later source, and it returns absence exactly when every source's attempt
returns a falsy (absent or empty) result. -/
theorem fetch_lyrics_first_truthy_source (S : Sources) (a t : String) :
    (∀ l, S.lrclib a t = some l → l ≠ "" →
      fetch_lyrics_trace S a t = (some (pyStrip l), [Source.lrclib])) ∧
    (truthyS (S.lrclib a t) = false → ∀ l, S.chartlyrics a t = some l → l ≠ "" →
      fetch_lyrics_trace S a t =
        (some (pyStrip l), [Source.lrclib, Source.chartlyrics])) ∧
    (truthyS (S.lrclib a t) = false → truthyS (S.chartlyrics a t) = false →
      ∀ l, S.ovh (cleanTag a) (cleanTag t) = some l → l ≠ "" →
      fetch_lyrics_trace S a t = (some (pyStrip l), chain_order)) ∧
    (fetch_lyrics S a t = none ↔
      truthyS (S.lrclib a t) = false ∧ truthyS (S.chartlyrics a t) = false ∧
        truthyS (S.ovh (cleanTag a) (cleanTag t)) = false) := by
  exact ⟨fun l hl hne => fetch_trace_first hl hne,
    fun h1 l hl hne => fetch_trace_second h1 hl hne,
    fun h1 h2 l hl hne => fetch_trace_third h1 h2 hl hne,
    fetch_lyrics_none_iff S a t⟩

/-- C1 (witness): with a mocked first source returning "La la la" the chain
stops at LRCLIB and returns "La la la". -/
theorem fetch_lyrics_first_truthy_source_witness :
    fetch_lyrics_trace (sourcesFirst "La la la") "a" "t" =
      (some "La la la", [Source.lrclib]) := by
  have h := (fetch_lyrics_first_truthy_source (sourcesFirst "La la la") "a" "t").1
    "La la la" rfl (by decide)
  exact h.trans (by decide)

/-- C3 (counterexample): on a fetch where every source reports absence, the
chain consults ChartLyrics, a source absent from the configuration constant
`api_sources`, so the sources attempted are not exactly those of the
configuration constant. -/
theorem chain_consults_source_outside_api_sources :
    (fetch_lyrics_trace sourcesNone "a" "t").2 ≠ api_sources ∧
    Source.chartlyrics ∈ (fetch_lyrics_trace sourcesNone "a" "t").2 ∧
    Source.chartlyrics ∉ api_sources := by
  decide

/-- C3 (amended): the chain holds a fixed, ordered, runtime-immutable list
of sources, but it is the hard-coded order LRCLIB, ChartLyrics, lyrics.ovh
of the `fetch_lyrics` body, not the `api_sources` configuration constant
(which omits ChartLyrics and is never consulted): every fetch attempts a
nonempty initial segment of that hard-coded order, the whole of it whenever
the chain returns absence, and that order differs from `api_sources`. -/
theorem fetch_consults_chain_order (S : Sources) (a t : String) :
    ((fetch_lyrics_trace S a t).2 = chain_order.take 1 ∨
     (fetch_lyrics_trace S a t).2 = chain_order.take 2 ∨
     (fetch_lyrics_trace S a t).2 = chain_order) ∧
    (fetch_lyrics S a t = none → (fetch_lyrics_trace S a t).2 = chain_order) ∧
    api_sources ≠ chain_order := by
  refine ⟨?_, ?_, by decide⟩
  · cases h1 : truthyS (S.lrclib a t) with
    | true =>
      obtain ⟨l, hl, hne⟩ := truthyS_true_elim h1
      rw [fetch_trace_first hl hne]
      exact Or.inl rfl
    | false =>
      cases h2 : truthyS (S.chartlyrics a t) with
      | true =>
        obtain ⟨l, hl, hne⟩ := truthyS_true_elim h2
        rw [fetch_trace_second h1 hl hne]
        exact Or.inr (Or.inl rfl)
      | false =>
        cases h3 : truthyS (S.ovh (cleanTag a) (cleanTag t)) with
        | true =>
          obtain ⟨l, hl, hne⟩ := truthyS_true_elim h3
          rw [fetch_trace_third h1 h2 hl hne]
          exact Or.inr (Or.inr rfl)
        | false =>
          rw [fetch_trace_none h1 h2 h3]
          exact Or.inr (Or.inr rfl)
  · intro hn
    obtain ⟨h1, h2, h3⟩ := (fetch_lyrics_none_iff S a t).mp hn
    rw [fetch_trace_none h1 h2 h3]

/-- C3 (witness): on an all-absent fetch the attempted sources are exactly
the hard-coded order. -/
theorem fetch_consults_chain_order_witness :
    (fetch_lyrics_trace sourcesNone "x" "y").2 = chain_order :=
  (fetch_consults_chain_order sourcesNone "x" "y").2.1 (by decide)

/-- C2: when the sidecar `.txt` file already exists, `process_audio_file`
leaves the file store (and hence the existing sidecar's contents)
unchanged, extracts no metadata, performs no fetch, and increments neither
the found counter nor the error counter. -/
theorem process_skips_existing_sidecar (env : Env) (fs : FS) (c : Counters)
    (f : FileName) (h : txtExists fs (txtPath f) = true) :
    (process_audio_file env fs c f).1 = fs ∧
    ((process_audio_file env fs c f).2.1).found = c.found ∧
    ((process_audio_file env fs c f).2.1).errors = c.errors ∧
    fsGet (process_audio_file env fs c f).1 (txtPath f) = fsGet fs (txtPath f) ∧
    Event.extractedMeta ∉ (process_audio_file env fs c f).2.2 ∧
    (∀ a t, Event.fetched a t ∉ (process_audio_file env fs c f).2.2) := by
  simp [process_audio_file, h]

/-- C2 (witness): a file whose sidecar holds "old" is skipped and the store
is untouched. -/
theorem process_skips_existing_sidecar_witness :
    (process_audio_file envNoMeta [(⟨"song", "txt"⟩, "old")] ⟨0, 0, 0⟩
        ⟨"song", "flac"⟩).1 = [(⟨"song", "txt"⟩, "old")] :=
  (process_skips_existing_sidecar envNoMeta [(⟨"song", "txt"⟩, "old")] ⟨0, 0, 0⟩
    ⟨"song", "flac"⟩ (by decide)).1

/-- C4 (counterexample): a file whose metadata extraction yields nothing
reaches the MissingMetadata terminal state (the error counter is
incremented), yet no pacing sleep occurs for it: `process_audio_file`
returns before the `time.sleep(self.delay)` line. -/
theorem missing_metadata_no_sleep :
    (process_audio_file envNoMeta [] ⟨0, 0, 0⟩ ⟨"a", "flac"⟩).2.1.errors = 1 ∧
    Event.slept ∉ (process_audio_file envNoMeta [] ⟨0, 0, 0⟩ ⟨"a", "flac"⟩).2.2 := by
  decide

/-- C4 (amended): the pacing delay elapses after a file exactly when that
file passes both the existing-sidecar check and the metadata check, i.e.
exactly on the paths that reach the fetch (LyricsFetched or LyricsNotFound
terminal states); neither the AlreadyHasLyrics path nor the MissingMetadata
path sleeps. -/
theorem sleep_iff_reaches_fetch (env : Env) (fs : FS) (c : Counters) (f : FileName) :
    Event.slept ∈ (process_audio_file env fs c f).2.2 ↔
      txtExists fs (txtPath f) = false ∧
      truthyS (env.meta f).1 = true ∧ truthyS (env.meta f).2 = true := by
  cases hx : txtExists fs (txtPath f) with
  | true => simp [process_audio_file, hx]
  | false =>
    cases h1 : truthyS (env.meta f).1 with
    | false => simp [process_audio_file, hx, h1]
    | true =>
      cases h2 : truthyS (env.meta f).2 with
      | false => simp [process_audio_file, hx, h1, h2]
      | true =>
        simp [process_audio_file, hx, h1, h2]
        split
        · split <;> simp
        · simp

/-- C4 (witness): on the happy-path environment the file reaches the fetch
and the pacing sleep occurs. -/
theorem sleep_iff_reaches_fetch_witness :
    Event.slept ∈ (process_audio_file envFound [] ⟨0, 0, 0⟩ ⟨"song", "flac"⟩).2.2 :=
  (sleep_iff_reaches_fetch envFound [] ⟨0, 0, 0⟩ ⟨"song", "flac"⟩).mpr
    (by exact ⟨by decide, by decide, by decide⟩)

/-- C5 (counterexample): the first source returns `"La la la\n"`, a present
result, but the sidecar is written with `"La la la"`: the file does not
contain exactly the lyrics text the source returned, because `fetch_lyrics`
strips the text before it is saved. -/
theorem saved_sidecar_differs_from_source_text :
    (sourcesFirst "La la la\n").lrclib "x" "y" = some "La la la\n" ∧
    fsGet (process_audio_file ⟨fun _ => (some "x", some "y"),
        sourcesFirst "La la la\n", fun _ => true⟩ [] ⟨0, 0, 0⟩
        ⟨"song", "flac"⟩).1 ⟨"song", "txt"⟩ = some "La la la" ∧
    ("La la la" : String) ≠ "La la la\n" := by
  exact ⟨rfl, by decide, by decide⟩

/-- C5 (amended): whenever the chain finds lyrics — through whichever of
the three sources — the sidecar written has the same base name with
extension `txt` and contains exactly the chain's returned text, with no
metadata header; and that text is the whitespace-stripped text of the
successful source (so a source value with no surrounding whitespace, such
as "La la la", is saved verbatim). -/
theorem saved_sidecar_is_stripped_chain_result (env : Env) (fs : FS)
    (c : Counters) (f : FileName) (a t L : String)
    (hx : txtExists fs (txtPath f) = false)
    (hm : env.meta f = (some a, some t))
    (ha : a ≠ "") (ht2 : t ≠ "")
    (hfetch : fetch_lyrics env.srcs a t = some L)
    (hL : L ≠ "")
    (hsave : env.saveOk f = true) :
    fsGet (process_audio_file env fs c f).1 (txtPath f) = some L ∧
    txtPath f = ⟨f.stem, "txt"⟩ ∧
    ((process_audio_file env fs c f).2.1).found = c.found + 1 ∧
    (∃ raw, L = pyStrip raw ∧
      (env.srcs.lrclib a t = some raw ∨ env.srcs.chartlyrics a t = some raw ∨
       env.srcs.ovh (cleanTag a) (cleanTag t) = some raw)) := by
  have hx2 : txtExists fs ⟨f.stem, "txt"⟩ = false := hx
  refine ⟨?_, rfl, ?_, fetch_lyrics_some_elim hfetch⟩ <;>
    simp [process_audio_file, hx, hx2, hm, truthyS_some ha, truthyS_some ht2,
      hfetch, truthyS_some hL, hsave, fsWrite, fsGet, txtPath]

/-- C5 (witness): the spec's end-to-end scenario: metadata present, first
source returns "La la la", and `song.txt` is created containing exactly
"La la la" with the found counter at 1. -/
theorem saved_sidecar_is_stripped_chain_result_witness :
    fsGet (process_audio_file envFound [] ⟨0, 0, 0⟩ ⟨"song", "flac"⟩).1
        ⟨"song", "txt"⟩ = some "La la la" ∧
    ((process_audio_file envFound [] ⟨0, 0, 0⟩ ⟨"song", "flac"⟩).2.1).found = 1 := by
  have h := saved_sidecar_is_stripped_chain_result envFound [] ⟨0, 0, 0⟩
    ⟨"song", "flac"⟩ "Test Artist" "Test Song" "La la la"
    (by decide) rfl (by decide) (by decide) (by decide) (by decide) rfl
  exact ⟨h.1, h.2.2.1⟩

/-- C6: a file (with no existing sidecar) whose metadata extraction yields a
falsy artist or title is never passed to the fallback chain, no sidecar is
written, and the error counter is incremented by exactly one. -/
theorem missing_metadata_skips_fetch (env : Env) (fs : FS) (c : Counters)
    (f : FileName) (hx : txtExists fs (txtPath f) = false)
    (hm : truthyS (env.meta f).1 = false ∨ truthyS (env.meta f).2 = false) :
    (process_audio_file env fs c f).1 = fs ∧
    ((process_audio_file env fs c f).2.1).errors = c.errors + 1 ∧
    ((process_audio_file env fs c f).2.1).found = c.found ∧
    (∀ a t, Event.fetched a t ∉ (process_audio_file env fs c f).2.2) := by
  have hcond : (!truthyS (env.meta f).1 || !truthyS (env.meta f).2) = true := by
    cases hm with
    | inl h => simp [h]
    | inr h => simp [h]
  simp [process_audio_file, hx, hcond]

/-- C6 (witness): an untagged file is counted as exactly one error and the
chain is not invoked. -/
theorem missing_metadata_skips_fetch_witness :
    ((process_audio_file envNoMeta [] ⟨0, 0, 0⟩ ⟨"untagged", "mp3"⟩).2.1).errors = 1 :=
  (missing_metadata_skips_fetch envNoMeta [] ⟨0, 0, 0⟩ ⟨"untagged", "mp3"⟩
    (by decide) (Or.inl (by decide))).2.1

/-- C7: every per-source attempt is the `try`/`except` wrapping of its body,
so no exception reaches its caller, and every failure — a raised transport
error, a non-success status, a malformed response shape, or an empty
payload — is mapped to absence.  The conjunction covers, for each of the
four sources: any raising body is swallowed to `none`; any non-200 status
yields `none`; a raised transport exception yields `none`; and each
empty-payload shape yields `none`. -/
theorem sources_swallow_failures :
    ((∀ t e, fetch_lyrics_lrclib_body t = .error e → fetch_lyrics_lrclib t = none) ∧
     (∀ s b, s ≠ 200 → fetch_lyrics_lrclib (.ok s b) = none) ∧
     fetch_lyrics_lrclib .exn = none ∧
     fetch_lyrics_lrclib (.ok 200 .malformed) = none ∧
     fetch_lyrics_lrclib (.ok 200 (.json [])) = none ∧
     (∀ r rest, r.plainLyrics = "" → r.syncedLyrics = "" →
        fetch_lyrics_lrclib (.ok 200 (.json (r :: rest))) = none)) ∧
    ((∀ t e, fetch_lyrics_chartlyrics_body t = .error e →
        fetch_lyrics_chartlyrics t = none) ∧
     (∀ s b, s ≠ 200 → fetch_lyrics_chartlyrics (.ok s b) = none) ∧
     fetch_lyrics_chartlyrics .exn = none ∧
     fetch_lyrics_chartlyrics (.ok 200 .malformed) = none ∧
     fetch_lyrics_chartlyrics (.ok 200 (.xml none)) = none ∧
     fetch_lyrics_chartlyrics (.ok 200 (.xml (some ""))) = none) ∧
    ((∀ t e, fetch_lyrics_ovh_body t = .error e → fetch_lyrics_ovh t = none) ∧
     (∀ s b, s ≠ 200 → fetch_lyrics_ovh (.ok s b) = none) ∧
     fetch_lyrics_ovh .exn = none ∧
     fetch_lyrics_ovh (.ok 200 .malformed) = none ∧
     fetch_lyrics_ovh (.ok 200 (.json "")) = none) ∧
    ((∀ t e, fetch_lyrics_api_body t = .error e → fetch_lyrics_api t = none) ∧
     (∀ s b, s ≠ 200 → fetch_lyrics_api (.ok s b) = none) ∧
     fetch_lyrics_api .exn = none ∧
     fetch_lyrics_api (.ok 200 .malformed) = none ∧
     fetch_lyrics_api (.ok 200 .jsonNoContents) = none ∧
     fetch_lyrics_api (.ok 200 .jsonBadContents) = none ∧
     fetch_lyrics_api (.ok 200 (.json "")) = none) := by
  refine ⟨⟨?_, ?_, rfl, ?_, ?_, ?_⟩, ⟨?_, ?_, rfl, ?_, ?_, ?_⟩,
    ⟨?_, ?_, rfl, ?_, ?_⟩, ⟨?_, ?_, rfl, ?_, ?_, ?_, ?_⟩⟩
  · intro t e h
    simp [fetch_lyrics_lrclib, tryExceptNone, h]
  · intro s b hs
    simp [fetch_lyrics_lrclib, fetch_lyrics_lrclib_body, tryExceptNone, hs]
  · simp [fetch_lyrics_lrclib, fetch_lyrics_lrclib_body, tryExceptNone]
  · simp [fetch_lyrics_lrclib, fetch_lyrics_lrclib_body, tryExceptNone]
  · intro r rest h1 h2
    simp [fetch_lyrics_lrclib, fetch_lyrics_lrclib_body, tryExceptNone, h1, h2]
  · intro t e h
    simp [fetch_lyrics_chartlyrics, tryExceptNone, h]
  · intro s b hs
    simp [fetch_lyrics_chartlyrics, fetch_lyrics_chartlyrics_body, tryExceptNone, hs]
  · simp [fetch_lyrics_chartlyrics, fetch_lyrics_chartlyrics_body, tryExceptNone]
  · simp [fetch_lyrics_chartlyrics, fetch_lyrics_chartlyrics_body, tryExceptNone]
  · simp [fetch_lyrics_chartlyrics, fetch_lyrics_chartlyrics_body, tryExceptNone]
  · intro t e h
    simp [fetch_lyrics_ovh, tryExceptNone, h]
  · intro s b hs
    simp [fetch_lyrics_ovh, fetch_lyrics_ovh_body, tryExceptNone, hs]
  · simp [fetch_lyrics_ovh, fetch_lyrics_ovh_body, tryExceptNone]
  · simp [fetch_lyrics_ovh, fetch_lyrics_ovh_body, tryExceptNone]
  · intro t e h
    simp [fetch_lyrics_api, tryExceptNone, h]
  · intro s b hs
    simp [fetch_lyrics_api, fetch_lyrics_api_body, tryExceptNone, hs]
  · simp [fetch_lyrics_api, fetch_lyrics_api_body, tryExceptNone]
  · simp [fetch_lyrics_api, fetch_lyrics_api_body, tryExceptNone]
  · simp [fetch_lyrics_api, fetch_lyrics_api_body, tryExceptNone]
  · simp [fetch_lyrics_api, fetch_lyrics_api_body, tryExceptNone]

/-- C7 (witness): a raised LRCLIB transport call and a 404 from lyrics.ovh
both surface as absence. -/
theorem sources_swallow_failures_witness :
    fetch_lyrics_lrclib .exn = none ∧ fetch_lyrics_ovh (.ok 404 (.json "text")) = none :=
  ⟨sources_swallow_failures.1.1 .exn () rfl,
   sources_swallow_failures.2.2.1.2.1 404 (.json "text") (by decide)⟩

/-- C8 (counterexample): `song.Flac` has an extension that is a case variant
of `flac`, yet none of the eight glob patterns (all-lowercase or
all-uppercase only) matches it, so the scan does not discover it. -/
theorem mixed_case_extension_not_discovered :
    extIsCaseVariant ⟨"song", "Flac"⟩ = true ∧
    matchesAudioPattern ⟨"song", "Flac"⟩ = false ∧
    discoverAudio [⟨"song", "Flac"⟩] = [] := by
  decide

/-- C8 (amended): the scan discovers exactly the files whose extension is
one of the eight fixed pattern extensions (`flac`, `mp3`, `m4a`, `mp4`, in
all-lowercase or all-uppercase form — not arbitrary case variants),
de-duplicates them, and arranges them in a duplicate-free sorted order. -/
theorem discoverAudio_exactly_pattern_matches (tree : List FileName) :
    (∀ f, f ∈ discoverAudio tree ↔ (f ∈ tree ∧ matchesAudioPattern f = true)) ∧
    (discoverAudio tree).Nodup ∧
    (discoverAudio tree).Sorted fileLE := by
  refine ⟨?_, ?_, ?_⟩
  · intro f
    unfold discoverAudio
    rw [List.mem_insertionSort, List.mem_dedup, List.mem_filter]
  · exact ((List.perm_insertionSort fileLE _).nodup_iff).mpr (List.nodup_dedup _)
  · exact List.sorted_insertionSort fileLE _

/-- C8 (witness): a small tree with a duplicate, a non-audio file and a
mixed-case extension scans to the two matching files in sorted order. -/
theorem discoverAudio_exactly_pattern_matches_witness :
    ⟨"a", "mp3"⟩ ∈ discoverAudio
      [⟨"b", "flac"⟩, ⟨"a", "mp3"⟩, ⟨"b", "flac"⟩, ⟨"x", "Flac"⟩, ⟨"n", "txt"⟩] :=
  ((discoverAudio_exactly_pattern_matches
      [⟨"b", "flac"⟩, ⟨"a", "mp3"⟩, ⟨"b", "flac"⟩, ⟨"x", "Flac"⟩, ⟨"n", "txt"⟩]).1
    ⟨"a", "mp3"⟩).mpr ⟨by decide, by decide⟩

lemma runFiles_skip_all (env : Env) (files : List FileName) (fs : FS)
    (c : Counters) (h : ∀ f ∈ files, txtExists fs (txtPath f) = true) :
    runFiles env files fs c =
      (fs, c, files.map (fun f => (f, [Event.skippedExisting]))) := by
  induction files with
  | nil => simp [runFiles]
  | cons f rest ih =>
    have hf := h f (by simp)
    have hrest : ∀ g ∈ rest, txtExists fs (txtPath g) = true :=
      fun g hg => h g (by simp [hg])
    simp [runFiles, process_audio_file, hf, ih hrest]

lemma runFiles_length (env : Env) (files : List FileName) :
    ∀ (fs : FS) (c : Counters),
      ((runFiles env files fs c).2.2).length = files.length := by
  induction files with
  | nil => intro fs c; simp [runFiles]
  | cons f rest ih =>
    intro fs c
    simp [runFiles, ih]

/-- C9 (counterexample): a directory with one untagged audio file: the first
run counts it as an error and writes nothing, so on the second run the file
does not take the already-exists skip path and is counted as an error
again — the second run's counts are not those of the all-skip path. -/
theorem second_run_not_all_skip :
    (process_directory envNoMeta [⟨"a", "flac"⟩]
        (process_directory envNoMeta [⟨"a", "flac"⟩] []).1).2.1.errors = 1 ∧
    (process_directory envNoMeta [⟨"a", "flac"⟩]
        (process_directory envNoMeta [⟨"a", "flac"⟩] []).1).2.2 ≠
      [(⟨"a", "flac"⟩, [Event.skippedExisting])] := by
  decide

/-- C9 (amended): if the first run leaves every discovered audio file with
an existing sidecar (as when every file's lyrics were found and saved),
then on the second run every file takes the already-exists skip path, the
store is unchanged, and the found and error (and processed) counts are the
zero counts of the all-skip path. -/
theorem second_run_all_skip (env : Env) (tree : List FileName) (fs0 : FS)
    (h : ∀ f ∈ discoverAudio tree,
      txtExists (process_directory env tree fs0).1 (txtPath f) = true) :
    process_directory env tree (process_directory env tree fs0).1 =
      ((process_directory env tree fs0).1, ⟨0, 0, 0⟩,
        (discoverAudio tree).map (fun f => (f, [Event.skippedExisting]))) := by
  unfold process_directory at h ⊢
  exact runFiles_skip_all env (discoverAudio tree) _ _ h

/-- C9 (witness): with metadata present and the first source succeeding, the
first run writes the sidecar and the second run is one all-skip pass with
zero counts. -/
theorem second_run_all_skip_witness :
    process_directory envFound [⟨"song", "flac"⟩]
        (process_directory envFound [⟨"song", "flac"⟩] []).1 =
      ((process_directory envFound [⟨"song", "flac"⟩] []).1, ⟨0, 0, 0⟩,
        [(⟨"song", "flac"⟩, [Event.skippedExisting])]) := by
  have h := second_run_all_skip envFound [⟨"song", "flac"⟩] [] (by decide)
  exact h.trans (by decide)

/-- C10: when the chain returns truthy lyrics but saving the sidecar fails,
`process_audio_file` increments neither the found counter nor the error
counter, increments the processed counter by one, and the batch continues:
a run over this file followed by any remaining files still produces a
processing record for every file. -/
theorem save_failure_counts (env : Env) (fs : FS) (c : Counters)
    (f : FileName) (a t : String)
    (hx : txtExists fs (txtPath f) = false)
    (hm : env.meta f = (some a, some t))
    (ha : a ≠ "") (ht2 : t ≠ "")
    (hfetch : truthyS (fetch_lyrics env.srcs a t) = true)
    (hsave : env.saveOk f = false) :
    ((process_audio_file env fs c f).2.1).found = c.found ∧
    ((process_audio_file env fs c f).2.1).errors = c.errors ∧
    ((process_audio_file env fs c f).2.1).processed = c.processed + 1 ∧
    (∀ rest, ((runFiles env (f :: rest) fs c).2.2).length = rest.length + 1) := by
  have hx2 : txtExists fs ⟨f.stem, "txt"⟩ = false := hx
  refine ⟨?_, ?_, ?_, ?_⟩ <;>
    simp [process_audio_file, runFiles, runFiles_length, hx, hx2, hm,
      truthyS_some ha, truthyS_some ht2, hfetch, hsave]

/-- C10 (witness): lyrics found, save fails: processed becomes 1 while found
and errors stay 0. -/
theorem save_failure_counts_witness :
    ((process_audio_file envSaveFail [] ⟨0, 0, 0⟩ ⟨"song", "flac"⟩).2.1).processed = 1 ∧
    ((process_audio_file envSaveFail [] ⟨0, 0, 0⟩ ⟨"song", "flac"⟩).2.1).found = 0 ∧
    ((process_audio_file envSaveFail [] ⟨0, 0, 0⟩ ⟨"song", "flac"⟩).2.1).errors = 0 := by
  have h := save_failure_counts envSaveFail [] ⟨0, 0, 0⟩ ⟨"song", "flac"⟩ "x" "y"
    (by decide) rfl (by decide) (by decide) (by decide) rfl
  exact ⟨h.2.2.1, h.1, h.2.1⟩
